import Mathlib

set_option maxRecDepth 100000

/-!
# Verification of the avoc lexer and RPN expression builder

Shallow embedding of `src/parser/tokenreader.rs` (character-level lexer state
machine) and `src/parser/rpntreebuilder.rs` (shunting-yard expression builder),
together with the data model from `src/dto/token.rs` and `src/dto/node.rs`.

Modelling conventions:
* Rust `i32` values are `Int` with the `i32::MAX` bound checked during numeric
  parsing (the lexer never produces a sign, so only the upper bound matters).
* Rust `f32` values are modelled as exact rationals `ℚ`; IEEE rounding and
  overflow-to-infinity are outside the scope of the claims checked here.
* The source text is a `List Char` and slices are by character index; the Rust
  code byte-slices a UTF-8 `String`, which coincides for ASCII input (all
  inputs in the claims are ASCII).
* `char::is_alphabetic` / `is_alphanumeric` are modelled by the ASCII
  `Char.isAlpha` / `Char.isAlphanum`; all claim inputs are ASCII.
* The `TokenReader` stores its `State` in a `Cell`; this is modelled by
  explicit state passing: `tokenReaderParse` takes the cell contents before
  the call and returns them (inside `LexOut.done`) alongside the result.
* `panic!` (the iteration ceiling) and the out-of-range slice abort of the
  string-flush branch are modelled by the `LexOut.panic` / `PushOut.fatal`
  outcomes, distinct from the `SyntaxError` channel.
-/

namespace Avoc

/-- Tokens, from `src/dto/token.rs`. -/
inductive Token where
  | Operator (payload : String) (pos : Nat)
  | Identifier (name : String) (pos : Nat)
  | Function (name : String) (pos : Nat)
  | IntConstant (value : Int) (pos : Nat)
  | FloatConstant (value : ℚ) (pos : Nat)
  | StringConstant (value : String) (pos : Nat)
  | NewLine (pos : Nat)
  deriving DecidableEq, Repr

/-- `SyntaxError { pos, message }` from `src/dto/error.rs` (declared in
`src/dto/mod.rs`; carried through both components). -/
structure SyntaxError where
  pos : Nat
  message : String
  deriving DecidableEq, Repr

/-- The lexer mode, `enum Expected` in `src/parser/tokenreader.rs`. -/
inductive Expected where
  | Nothing
  | IntNumber
  | FloatNumber
  | StringConstant
  | Identifier
  | Operator
  | Newline
  | BlockComment
  | LineComment
  deriving DecidableEq, Repr

/-- The lexer working state, `struct State` in `src/parser/tokenreader.rs`. -/
structure State where
  expected : Expected
  start_offset : Nat
  is_ready_to_push : Bool
  is_prev_escape_symbol : Bool
  identifier_is_function : Bool
  is_inside_block_comment : Bool
  is_inside_string : Bool
  is_percent_float : Bool
  deriving DecidableEq, Repr

/-- The state installed by `TokenReader::new`. -/
def initialState : State where
  expected := .Nothing
  start_offset := 0
  is_ready_to_push := false
  is_prev_escape_symbol := false
  identifier_is_function := false
  is_inside_block_comment := false
  is_inside_string := false
  is_percent_float := false

/-- `const OPERATORS`, the string literal of operator characters. -/
def OPERATORS : List Char :=
  ['{', '}', '=', '+', '-', '*', '/', '^', '\\', '(', ')', '.', ',', '<', '>', ':', '@']

/-- `const KEYWORDS`. -/
def KEYWORDS : List String :=
  ["if", "else", "loop", "for", "in", "match", "mut", "and", "or", "xor", "not"]

/-- A single-quote character, used inside Rust error-message literals. -/
def squote : String := String.mk ['\x27']

/-- Value of a digit string (Rust `str::parse` on the all-digit lexemes the
state machine produces). -/
def digitsToNat (cs : List Char) : Nat :=
  cs.foldl (fun acc c => acc * 10 + (c.toNat - '0'.toNat)) 0

/-- Rust `token_content.parse::<i32>()` on a lexer-produced lexeme: succeeds
exactly on nonempty digit strings whose value fits in `i32`. -/
def parseI32 (cs : List Char) : Option Int :=
  if cs.isEmpty then none
  else if cs.all Char.isDigit then
    let n := digitsToNat cs
    if n ≤ 2147483647 then some (n : Int) else none
  else none

/-- Rust `token_content.parse::<f32>()` on a lexer-produced lexeme (digits with
at most one dot), with the value modelled exactly in `ℚ`. -/
def parseFloatQ (cs : List Char) : Option ℚ :=
  let intPart := cs.takeWhile Char.isDigit
  match cs.dropWhile Char.isDigit with
  | [] => if intPart.isEmpty then none else some (digitsToNat intPart : ℚ)
  | '.' :: frac =>
      if frac.all Char.isDigit ∧ (intPart ≠ [] ∨ frac ≠ []) then
        some ((digitsToNat intPart : ℚ) + (digitsToNat frac : ℚ) / (10 : ℚ) ^ frac.length)
      else none
  | _ => none

/-- `fn get_percent_float`. -/
def get_percent_float (float_value : ℚ) : ℚ := float_value / 100

/-- `fn get_keyword_or_identifier`. -/
def get_keyword_or_identifier (token_content : String) (start : Nat)
    (maybe_identifier_is_function : Bool) : Token :=
  if KEYWORDS.contains token_content then .Operator token_content start
  else if maybe_identifier_is_function then .Function token_content start
  else .Identifier token_content start

/-- The content of the slice `&source[a..b]` by character index. Rust panics
on an inverted (`a > b`) or out-of-range (`b > len`) slice; those aborts are
modelled by explicit range checks (`.fatal`) at the call sites in
`push_token_if_ready` / `push_float_token_if_ready`, evaluated in the same
order as the Rust code. (Rust additionally aborts on a byte index that is not
a character boundary; on the ASCII domains over which the theorems below
quantify, character and byte indices coincide, so that path cannot fire.) -/
def slice (source : List Char) (a b : Nat) : List Char :=
  (source.drop a).take (b - a)

/-- Result of `fn push_token_if_ready`: the new cell contents plus the token
list, an error (the cell is set before the `Err` is returned), or a process
abort (`fatal`, from an out-of-range slice in the string branch). -/
inductive PushOut where
  | ok (st : State) (tokens : List Token)
  | err (st : State) (e : SyntaxError)
  | fatal
  deriving DecidableEq, Repr

/-- `fn push_float_token_if_ready`. `reset` is the state the caller writes to
the cell after building the result. The percent branch slices
`&source[start..end-1]`; given the caller's check `start ≤ stop ≤ len`, that
range is inverted (or `end - 1` underflows) exactly when `stop < start + 1`,
and Rust aborts there (`.fatal`). -/
def push_float_token_if_ready (state : State) (source : List Char)
    (start stop : Nat) (tokens : List Token) (reset : State) : PushOut :=
  match state.is_percent_float with
  | true =>
      if stop < start + 1 then .fatal
      else
        let content := slice source start (stop - 1)
        match parseFloatQ content with
        | some v => .ok reset (tokens ++ [.FloatConstant (get_percent_float v) start])
        | none => .err reset
            ⟨start, "Can" ++ squote ++ "t parse percentage number " ++ String.mk content ++ "%"⟩
  | false =>
      let content := slice source start stop
      match parseFloatQ content with
      | some v => .ok reset (tokens ++ [.FloatConstant v start])
      | none => .err reset
          ⟨start, "Can" ++ squote ++ "t parse float number " ++ String.mk content⟩

/-- `fn push_token_if_ready`. `stop` is the Rust local `end`. Rust builds
`String::from(&source[start..end])` before dispatching on the mode, so an
inverted or out-of-range slice aborts the process regardless of the mode
(`.fatal` — reachable e.g. when a flush fires with a residual `start_offset`
past the end of a shorter source). The string branch additionally slices
`source[start+1 .. stop-1]`, which aborts when that range is inverted
(`stop < start + 2`, i.e. the input ended directly after the opening
quote). -/
def push_token_if_ready (state : State) (source : List Char)
    (offset : Nat) (tokens : List Token) : PushOut :=
  if state.is_ready_to_push then
    let start := state.start_offset
    let stop := offset - 1
    if start > stop ∨ stop > source.length then .fatal
    else
    let content := slice source start stop
    let reset : State :=
      { state with is_ready_to_push := false, expected := .Nothing, is_percent_float := false }
    match state.expected with
    | .IntNumber =>
        match parseI32 content with
        | some v => .ok reset (tokens ++ [.IntConstant v start])
        | none => .err reset
            ⟨start, "Can" ++ squote ++ "t parse int number " ++ String.mk content⟩
    | .FloatNumber => push_float_token_if_ready state source start stop tokens reset
    | .StringConstant =>
        if stop < start + 2 then .fatal
        else .ok reset
          (tokens ++ [.StringConstant (String.mk (slice source (start + 1) (stop - 1))) start])
    | .Identifier =>
        .ok reset (tokens ++ [get_keyword_or_identifier (String.mk content) start
          state.identifier_is_function])
    | .Operator => .ok reset (tokens ++ [.Operator (String.mk content) start])
    | .Newline => .ok reset (tokens ++ [.NewLine start])
    | .BlockComment => .ok reset tokens
    | .LineComment => .ok reset tokens
    | .Nothing => .ok reset tokens
  else .ok state tokens

/-- `fn reduce_state_nothing`. -/
def reduce_state_nothing (symbol : Char) (offset : Nat) (state : State) :
    Except SyntaxError State :=
  if symbol.isDigit then .ok { state with expected := .IntNumber, start_offset := offset }
  else if symbol.isAlpha then .ok { state with expected := .Identifier, start_offset := offset }
  else if symbol = '\n' then .ok { state with expected := .Newline, start_offset := offset }
  else if symbol.isWhitespace then .ok { state with start_offset := offset }
  else if OPERATORS.contains symbol then
    .ok { state with expected := .Operator, start_offset := offset }
  else if symbol = '"' then
    .ok { state with expected := .StringConstant, is_inside_string := true, start_offset := offset }
  else if symbol = '_' then
    .error ⟨offset, "Identifier names must not start with an underscore"⟩
  else .error ⟨offset, "Unexpected symbol " ++ squote ++ String.mk [symbol] ++ squote⟩

/-- `fn reduce_state_int_number`. -/
def reduce_state_int_number (symbol : Char) (offset : Nat) (state : State) :
    Except SyntaxError State :=
  if symbol.isDigit then .ok state
  else if symbol.isAlpha then
    .error ⟨offset, "Invalid character in integer number record: " ++ squote
      ++ String.mk [symbol] ++ squote⟩
  else if symbol = '%' then
    .ok { state with expected := .FloatNumber, is_percent_float := true }
  else if symbol = '.' then .ok { state with expected := .FloatNumber }
  else .ok { state with is_ready_to_push := true }

/-- `fn reduce_state_float_number`. -/
def reduce_state_float_number (symbol : Char) (offset : Nat) (state : State) :
    Except SyntaxError State :=
  if symbol.isDigit then .ok state
  else if symbol.isAlpha then
    .error ⟨offset, "Invalid character in floating point number record: " ++ squote
      ++ String.mk [symbol] ++ squote⟩
  else if symbol = '%' then
    match state.is_percent_float with
    | false => .ok { state with is_percent_float := true }
    | true => .error ⟨offset, "You cannot use the percent symbol twice on the same number"⟩
  else .ok { state with is_ready_to_push := true }

/-- `fn reduce_state_identifier`. -/
def reduce_state_identifier (symbol : Char) (state : State) : Except SyntaxError State :=
  if symbol.isAlphanum then .ok state
  else if symbol = '_' then .ok state
  else if symbol = '(' ∨ symbol = '{' then
    .ok { state with is_ready_to_push := true, identifier_is_function := true }
  else .ok { state with is_ready_to_push := true }

/-- `fn reduce_state_operator`. -/
def reduce_state_operator (symbol prev_symbol : Char) (state : State) :
    Except SyntaxError State :=
  if ['+', '-', '*', '/', '=', '!', '<', '>'].contains prev_symbol then
    if symbol = '=' then .ok state
    else if symbol = '>' then .ok { state with is_ready_to_push := prev_symbol != '-' }
    else if symbol = '/' then
      if prev_symbol = '/' then .ok { state with expected := .LineComment }
      else .ok { state with is_ready_to_push := true }
    else if symbol = '*' then
      if prev_symbol = '/' then
        .ok { state with expected := .BlockComment, is_inside_block_comment := true }
      else .ok { state with is_ready_to_push := true }
    else .ok { state with is_ready_to_push := true }
  else .ok { state with is_ready_to_push := true }

/-- `fn reduce_state_newline`. -/
def reduce_state_newline (symbol : Char) (state : State) : Except SyntaxError State :=
  if symbol = '\n' then .ok state
  else .ok { state with is_ready_to_push := true }

/-- `fn reduce_state_string_constant`. -/
def reduce_state_string_constant (symbol : Char) (state : State) : Except SyntaxError State :=
  match state.is_prev_escape_symbol with
  | false =>
      if symbol = '"' then .ok { state with is_inside_string := false }
      else if symbol = '\\' then .ok { state with is_prev_escape_symbol := true }
      else
        match state.is_inside_string with
        | true => .ok state
        | false => .ok { state with is_ready_to_push := true }
  | true => .ok { state with is_prev_escape_symbol := false }

/-- `fn reduce_state_block_comment`. -/
def reduce_state_block_comment (symbol prev_symbol : Char) (state : State) :
    Except SyntaxError State :=
  if prev_symbol = '*' then
    if symbol = '/' then .ok { state with is_inside_block_comment := false }
    else .ok state
  else
    match state.is_inside_block_comment with
    | true => .ok state
    | false => .ok { state with is_ready_to_push := true }

/-- `fn reduce_state_line_comment`. -/
def reduce_state_line_comment (symbol : Char) (state : State) : Except SyntaxError State :=
  if symbol = '\n' then .ok { state with is_ready_to_push := true }
  else .ok state

/-- `fn reduce_state` (the mode dispatch). -/
def reduce_state (symbol prev_symbol : Char) (offset : Nat) (state : State) :
    Except SyntaxError State :=
  match state.expected with
  | .Nothing => reduce_state_nothing symbol offset state
  | .IntNumber => reduce_state_int_number symbol offset state
  | .FloatNumber => reduce_state_float_number symbol offset state
  | .StringConstant => reduce_state_string_constant symbol state
  | .Identifier => reduce_state_identifier symbol state
  | .Operator => reduce_state_operator symbol prev_symbol state
  | .Newline => reduce_state_newline symbol state
  | .BlockComment => reduce_state_block_comment symbol prev_symbol state
  | .LineComment => reduce_state_line_comment symbol state

instance exceptDecEq {ε α : Type} [DecidableEq ε] [DecidableEq α] :
    DecidableEq (Except ε α) := fun a b =>
  match a, b with
  | .ok x, .ok y =>
      if h : x = y then .isTrue (by rw [h]) else .isFalse (by intro hc; cases hc; exact h rfl)
  | .error x, .error y =>
      if h : x = y then .isTrue (by rw [h]) else .isFalse (by intro hc; cases hc; exact h rfl)
  | .ok _, .error _ => .isFalse (by intro hc; cases hc)
  | .error _, .ok _ => .isFalse (by intro hc; cases hc)

/-- Outcome of `TokenReader::parse`: the Rust `Result` together with the cell
contents after the call, or a process abort. -/
inductive LexOut where
  | done (res : Except SyntaxError (List Token)) (st : State)
  | panic
  deriving DecidableEq, Repr

/-- The code after the `loop` in `TokenReader::parse`: set `is_ready_to_push`,
flush the pending lexeme once, and return the tokens. -/
def lexFinish (source : List Char) (st : State) (offset : Nat)
    (tokens : List Token) : LexOut :=
  match push_token_if_ready { st with is_ready_to_push := true } source offset tokens with
  | .fatal => .panic
  | .err stR e => .done (.error e) stR
  | .ok stR toks => .done (.ok toks) stR

/-- The `loop` in `TokenReader::parse`. The Rust loop counts iterations in
`it` and aborts the process when `it` exceeds 1000; `fuel` is `1001 - it`, so
the abort is the `fuel = 0` case and the loop is structurally recursive.
The four `if` projections mirror the conditional advance of the character
iterator (`prev_char` / `current_char` / `offset` are only moved when the
state is not ready to push). -/
def lexLoop (source : List Char) :
    Nat → State → List Char → Option Char → Char → Nat → List Token → LexOut
  | 0, _, _, _, _, _, _ => .panic
  | fuel + 1, state, rest, current, prev, offset, tokens =>
    let prevA := if state.is_ready_to_push then prev else current.getD '\n'
    let currentA := if state.is_ready_to_push then current else rest.head?
    let restA := if state.is_ready_to_push then rest else rest.tail
    let offsetA := if state.is_ready_to_push then offset else offset + 1
    match push_token_if_ready state source offsetA tokens with
    | .fatal => .panic
    | .err st e => .done (.error e) st
    | .ok st toks =>
      match currentA with
      | some c =>
        match reduce_state c prevA (offsetA - 1) st with
        | .error e => .done (.error e) st
        | .ok st2 => lexLoop source fuel st2 restA currentA prevA offsetA toks
      | none => lexFinish source st offsetA toks

/-- `TokenReader::parse`, from the given cell contents (a fresh reader has
`initialState`). -/
def tokenReaderParse (st0 : State) (source : List Char) : LexOut :=
  lexLoop source 1001 st0 source none '\n' 0 []

/-- The `Result` component of a parse, `none` when the process aborted. -/
def lexResult : LexOut → Option (Except SyntaxError (List Token))
  | .done r _ => some r
  | .panic => none

/-- The cell contents after a parse, `none` when the process aborted. -/
def lexState : LexOut → Option State
  | .done _ st => some st
  | .panic => none

/-- `enum NodeType` from `src/dto/node.rs` (only the `Token` variant is live;
the commented-out variants are omitted). -/
inductive NodeType where
  | Token
  deriving DecidableEq, Repr

/-- `struct Node` from `src/dto/node.rs`. The Rust struct also declares
`condition: Vec<Node>` and `children: Vec<Node>`, but `Node::from` (the only
constructor the parser uses) always sets them to empty vectors and no code
ever reads or writes them, so they are omitted from the model (spec section 3
likewise treats them as not part of the finalized shape). -/
structure Node where
  data : Option Token
  node_type : NodeType
  deriving DecidableEq, Repr

/-- `Node::from`. -/
def Node.from (token : Token) : Node where
  data := some token
  node_type := .Token

/-- `struct RpnTreeBuilder`: the operator stack (`VecDeque` used back-only, so
modelled as a list whose head is the back/top) and the output list. -/
structure RpnTreeBuilder where
  stack : List Node
  output : List Node
  deriving DecidableEq, Repr

/-- `RpnTreeBuilder::new`. -/
def RpnTreeBuilder.new : RpnTreeBuilder where
  stack := []
  output := []

/-- `fn get_priority` (operator precedence table). -/
def get_priority (operator : String) : Nat :=
  match operator with
  | "." => 15
  | "u-" | "not" => 13
  | "^" => 12
  | "*" | "/" => 11
  | "+" | "-" => 10
  | "<" | "<=" | ">" | ">=" | "is" => 9
  | "==" | "!=" => 8
  | "and" => 7
  | "or" | "xor" => 6
  | "if" | "match" => 2
  | "=" | "+=" | "-=" | "*=" | "/=" => 1
  | _ => 0

/-- `fn handle_right_bracket`: pop stack entries to the output until the
matching `(` marker (which is discarded). The Rust message for a node without
a token appends a debug dump of the node, elided here. -/
def handle_right_bracket (pos : Nat) :
    List Node → List Node → Except SyntaxError (List Node × List Node)
  | [], _ => .error ⟨pos, "This closing parenthesis has no matching opening parenthesis"⟩
  | node :: stack, output =>
    match node.data with
    | none => .error ⟨pos, "Unexpected node without token"⟩
    | some t =>
      match t with
      | .Operator payload _ =>
          if payload = "(" then .ok (stack, output)
          else handle_right_bracket pos stack (output ++ [node])
      | _ => handle_right_bracket pos stack (output ++ [node])

/-- `fn handle_operator`: pop stack entries to the output while the top is a
prefix function or an operator of priority greater than or equal to `op`. -/
def handle_operator (op : String) (pos : Nat) :
    List Node → List Node → Except SyntaxError (List Node × List Node)
  | [], output => .ok ([], output)
  | node :: stack, output =>
    match node.data with
    | none => .error ⟨pos, "Unexpected node without token"⟩
    | some t =>
      match t with
      | .Function _ _ => handle_operator op pos stack (output ++ [node])
      | .Operator payload _ =>
          if get_priority payload ≥ get_priority op then
            handle_operator op pos stack (output ++ [node])
          else .ok (node :: stack, output)
      | _ => .ok (node :: stack, output)

/-- `RpnTreeBuilder::push_token`. -/
def push_token (b : RpnTreeBuilder) (token : Token) : Except SyntaxError RpnTreeBuilder :=
  match token with
  | .FloatConstant _ _ => .ok { b with output := b.output ++ [Node.from token] }
  | .IntConstant _ _ => .ok { b with output := b.output ++ [Node.from token] }
  | .StringConstant _ _ => .ok { b with output := b.output ++ [Node.from token] }
  | .Identifier _ _ => .ok { b with output := b.output ++ [Node.from token] }
  | .Function _ _ => .ok { b with stack := Node.from token :: b.stack }
  | .Operator payload pos =>
    if payload = "(" then .ok { b with stack := Node.from token :: b.stack }
    else if payload = ")" then
      match handle_right_bracket pos b.stack b.output with
      | .ok (s, o) => .ok ⟨s, o⟩
      | .error e => .error e
    else
      match handle_operator payload pos b.stack b.output with
      | .ok (s, o) => .ok ⟨Node.from token :: s, o⟩
      | .error e => .error e
  | .NewLine pos =>
      .error ⟨pos, "No need to pass the NewLine token to the push_token function, call notify_met_separator instead"⟩

/-- The loop of `RpnTreeBuilder::notify_met_separator`: drain the stack into
the output, failing on a leftover parenthesis (at that token position). -/
def notify_loop (pos : Nat) :
    List Node → List Node → Except SyntaxError (List Node × List Node)
  | [], output => .ok ([], output)
  | node :: stack, output =>
    match node.data with
    | none => .error ⟨pos, "Unexpected node without token"⟩
    | some t =>
      match t with
      | .Operator payload tpos =>
          if payload = "(" ∨ payload = ")" then
            .error ⟨tpos, "The expression contains an extra or inconsistent parenthesis"⟩
          else notify_loop pos stack (output ++ [node])
      | _ => notify_loop pos stack (output ++ [node])

/-- `RpnTreeBuilder::notify_met_separator`. -/
def notify_met_separator (b : RpnTreeBuilder) (pos : Nat) :
    Except SyntaxError RpnTreeBuilder :=
  match notify_loop pos b.stack b.output with
  | .ok (s, o) => .ok ⟨s, o⟩
  | .error e => .error e

/-- Feed a token sequence to a builder, stopping at the first error (each Rust
call site checks the `Result` of `push_token` before continuing). -/
def pushAll (b : RpnTreeBuilder) (ts : List Token) : Except SyntaxError RpnTreeBuilder :=
  ts.foldlM push_token b

/-- Steady lexer state while scanning the digits of an integer literal that
starts at offset 0. -/
def stInt : State := { initialState with expected := .IntNumber }

/-- Steady lexer state after the `%` of a percent literal that starts at
offset 0. -/
def stFloatP : State := { initialState with expected := .FloatNumber, is_percent_float := true }

/-- Steady lexer state inside a string literal whose opening quote is at
offset 0. -/
def stStr : State := { initialState with expected := .StringConstant, is_inside_string := true }

/-! ## Theorems -/

theorem push_not_ready (st : State) (source : List Char) (offset : Nat)
    (tokens : List Token) (h : st.is_ready_to_push = false) :
    push_token_if_ready st source offset tokens = .ok st tokens := by
  unfold push_token_if_ready
  simp [h]

/-- Sanity check against the Rust test `test_integer_literals`. -/
theorem lexes_rust_integer_test :
    lexResult (tokenReaderParse initialState ('1' :: '+' :: '2' :: '2' :: []))
      = some (.ok [.IntConstant 1 0, .Operator "+" 1, .IntConstant 22 2]) := by
  decide

/-- Claim C1 (code bug): on input `f(b`, the earlier call-site name `f` leaves
`identifier_is_function` set, so the trailing identifier `b` — followed by end
of input, not by `(` or `{` — is nevertheless emitted as a `Function` token
instead of an `Identifier`. -/
theorem c1_call_site_flag_leak :
    lexResult (tokenReaderParse initialState ['f', '(', 'b'])
      = some (.ok [.Function "f" 0, .Operator "(" 1, .Function "b" 2]) := by
  decide

/-- Claim C2 (code bug): the defensive iteration ceiling (`it > 1000`) of
`TokenReader::parse` aborts the process on the legitimate 1001-character input
consisting of the letter `a` repeated, instead of returning its token list. -/
theorem c2_iteration_ceiling_panics :
    tokenReaderParse initialState (List.replicate 1001 'a') = .panic := by
  decide

/-- Claim C3 counterexample: parsing `f(` leaves `identifier_is_function` set
in the reader state, so a subsequent `parse("b")` on the same instance yields
`Function "b"` while a freshly constructed instance yields `Identifier "b"`:
`parse` is not a pure function of the input text across calls. -/
theorem c3_counterexample :
    (match tokenReaderParse initialState ['f', '('] with
      | .done _ st => lexResult (tokenReaderParse st ['b'])
      | .panic => none)
      ≠ lexResult (tokenReaderParse initialState ['b']) := by
  decide

/-- Claim C4 counterexample: the input `"abc` ends inside an unclosed string
literal, yet `parse` succeeds and emits a `StringConstant` built from the
incomplete literal (with payload `ab`, the content truncated by one). -/
theorem c4_counterexample :
    lexResult (tokenReaderParse initialState ['"', 'a', 'b', 'c'])
      = some (.ok [.StringConstant "ab" 0]) := by
  decide

/-- Claim C5: feeding the builder `a + b - c * d` and then the end-of-expression
notifier succeeds and produces exactly the postfix node sequence
`a b + c d * -` (left-associativity at equal precedence, `*` binding tighter
than `+` and `-`), draining the stack. -/
theorem c5_shunting_yard_concrete :
    (pushAll RpnTreeBuilder.new
        [.Identifier "a" 0, .Operator "+" 0, .Identifier "b" 0, .Operator "-" 0,
         .Identifier "c" 0, .Operator "*" 0, .Identifier "d" 0]
      >>= (notify_met_separator · 0))
      = .ok ⟨[],
          [Node.from (.Identifier "a" 0), Node.from (.Identifier "b" 0),
           Node.from (.Operator "+" 0), Node.from (.Identifier "c" 0),
           Node.from (.Identifier "d" 0), Node.from (.Operator "*" 0),
           Node.from (.Operator "-" 0)]⟩ := by
  decide

/-- Claim C6: pushing the tokens of `( a + b` and then calling the
end-of-expression notifier fails with the extra/inconsistent-parenthesis error
(the unmatched `(` is discovered at expression end), and pushing the tokens of
`a + b )` fails at the `)` token itself (position 6) with the
no-matching-opening-parenthesis message. -/
theorem c6_paren_mismatch :
    ((pushAll RpnTreeBuilder.new
        [.Operator "(" 0, .Identifier "a" 2, .Operator "+" 4, .Identifier "b" 6]
      >>= (notify_met_separator · 7))
      = .error ⟨0, "The expression contains an extra or inconsistent parenthesis"⟩)
    ∧ (pushAll RpnTreeBuilder.new
        [.Identifier "a" 0, .Operator "+" 2, .Identifier "b" 4, .Operator ")" 6]
      = .error ⟨6, "This closing parenthesis has no matching opening parenthesis"⟩) := by
  constructor <;> decide

/-- Claim C8 counterexample: for the 1000-digit sequence `d`, lexing `d%%`
does not return a `SyntaxError` at all — the iteration ceiling aborts the
process first. -/
theorem c8_counterexample :
    tokenReaderParse initialState (List.replicate 1000 '1' ++ ['%', '%']) = .panic := by
  decide

/-- Claim C9 counterexample: for the 1000-digit sequence `d`, lexing `d%`
does not return a `FloatConstant` — the iteration ceiling aborts the process
first. -/
theorem c9_counterexample :
    tokenReaderParse initialState (List.replicate 1000 '2' ++ ['%']) = .panic := by
  decide

/-- Claim C7: an identifier lexeme whose spelling is in the keyword list is
always classified as an `Operator` token carrying that spelling — regardless
of the call-site flag — and, end to end, lexing the keyword immediately
followed by `(` or by `{` emits `Operator` (never `Identifier` or `Function`)
for it. -/
theorem c7_keyword_always_operator (s : String) (pos : Nat) (b : Bool)
    (h : s ∈ KEYWORDS) :
    get_keyword_or_identifier s pos b = .Operator s pos
    ∧ lexResult (tokenReaderParse initialState (s.data ++ ['(']))
        = some (.ok [.Operator s 0, .Operator "(" s.data.length])
    ∧ lexResult (tokenReaderParse initialState (s.data ++ ['{']))
        = some (.ok [.Operator s 0, .Operator "\x7b" s.data.length]) := by
  simp only [KEYWORDS, List.mem_cons, List.not_mem_nil, or_false] at h
  rcases h with rfl | rfl | rfl | rfl | rfl | rfl | rfl | rfl | rfl | rfl | rfl <;>
    exact ⟨rfl, by decide, by decide⟩

theorem c7_witness :
    get_keyword_or_identifier "if" 0 true = .Operator "if" 0
    ∧ lexResult (tokenReaderParse initialState ("if".data ++ ['(']))
        = some (.ok [.Operator "if" 0, .Operator "(" "if".data.length])
    ∧ lexResult (tokenReaderParse initialState ("if".data ++ ['{']))
        = some (.ok [.Operator "if" 0, .Operator "\x7b" "if".data.length]) :=
  c7_keyword_always_operator "if" 0 true (by decide)

/-- Claim C10: when the builder receives an operator whose payload has
priority 0 while the top of the stack is the `(` marker (and nothing below
it), the marker is popped into the output — because `(` itself has priority 0
and `handle_operator` pops on priority greater or equal — and the incoming
operator takes its place on the stack, so no `(` survives for a later `)`. -/
theorem c10_zero_priority_pops_marker (p : String) (pos1 pos2 : Nat)
    (output : List Node) (h0 : get_priority p = 0) (h1 : p ≠ "(") (h2 : p ≠ ")") :
    push_token ⟨[Node.from (.Operator "(" pos1)], output⟩ (.Operator p pos2)
      = .ok ⟨[Node.from (.Operator p pos2)], output ++ [Node.from (.Operator "(" pos1)]⟩ := by
  have hlp : get_priority "(" = 0 := rfl
  simp [push_token, handle_operator, Node.from, h0, h1, h2, hlp]

theorem c10_witness :
    push_token ⟨[Node.from (.Operator "(" 0)], []⟩ (.Operator "," 1)
      = .ok ⟨[Node.from (.Operator "," 1)], [] ++ [Node.from (.Operator "(" 0)]⟩ :=
  c10_zero_priority_pops_marker "," 0 1 [] rfl (by decide) (by decide)

/-- One loop iteration of `parse` that consumes a character whose reduction
succeeds: the iterator advances and the loop continues with the new state. -/
theorem lexLoop_consume (source : List Char) (fuel : Nat) (st : State)
    (c : Char) (rest : List Char) (current : Option Char) (prev : Char)
    (offset : Nat) (tokens : List Token) (st2 : State)
    (hready : st.is_ready_to_push = false)
    (hred : reduce_state c (current.getD '\n') offset st = .ok st2) :
    lexLoop source (fuel + 1) st (c :: rest) current prev offset tokens
      = lexLoop source fuel st2 rest (some c) (current.getD '\n') (offset + 1) tokens := by
  simp [lexLoop, push_not_ready _ _ _ _ hready, hready, Nat.add_sub_cancel, hred]

/-- One loop iteration of `parse` that consumes a character whose reduction
fails: the error is returned with the pre-reduction cell contents. -/
theorem lexLoop_consume_err (source : List Char) (fuel : Nat) (st : State)
    (c : Char) (rest : List Char) (current : Option Char) (prev : Char)
    (offset : Nat) (tokens : List Token) (e : SyntaxError)
    (hready : st.is_ready_to_push = false)
    (hred : reduce_state c (current.getD '\n') offset st = .error e) :
    lexLoop source (fuel + 1) st (c :: rest) current prev offset tokens
      = .done (.error e) st := by
  simp [lexLoop, push_not_ready _ _ _ _ hready, hready, Nat.add_sub_cancel, hred]

/-- The loop iteration of `parse` that runs out of input: the loop breaks and
the pending lexeme is flushed by the epilogue. -/
theorem lexLoop_finish (source : List Char) (fuel : Nat) (st : State)
    (current : Option Char) (prev : Char) (offset : Nat) (tokens : List Token)
    (hready : st.is_ready_to_push = false) :
    lexLoop source (fuel + 1) st [] current prev offset tokens
      = lexFinish source st (offset + 1) tokens := by
  simp [lexLoop, push_not_ready _ _ _ _ hready, hready]

/-- Scanning the digits `ds` of an integer literal followed by `%%`: the
state machine stays in `IntNumber` over the digits, switches to percent-float
at the first `%`, and reports the percent-reuse error at the second `%`. -/
theorem lexLoop_int_percent_twice (ds : List Char) :
    ∀ (source : List Char) (fuel : Nat) (current : Option Char) (prev : Char)
      (offset : Nat) (tokens : List Token),
    (∀ c ∈ ds, c.isDigit = true) → ds.length + 2 ≤ fuel →
    lexLoop source fuel stInt (ds ++ ['%', '%']) current prev offset tokens
      = .done (.error ⟨offset + ds.length + 1,
          "You cannot use the percent symbol twice on the same number"⟩) stFloatP := by
  induction ds with
  | nil =>
    intro source fuel current prev offset tokens _ hf
    obtain ⟨f, rfl⟩ : ∃ f, fuel = f + 1 + 1 := ⟨fuel - 2, by omega⟩
    rw [List.nil_append,
      lexLoop_consume source (f + 1) stInt '%' ['%'] current prev offset tokens stFloatP
        rfl rfl,
      lexLoop_consume_err source f stFloatP '%' [] (some '%') (current.getD '\n')
        (offset + 1) tokens _ rfl rfl]
    simp
  | cons c ds ih =>
    intro source fuel current prev offset tokens hd hf
    obtain ⟨f, rfl⟩ : ∃ f, fuel = f + 1 := ⟨fuel - 1, by omega⟩
    have hc : c.isDigit = true := hd c (by simp)
    have hred : reduce_state c (current.getD '\n') offset stInt = .ok stInt := by
      simp [reduce_state, reduce_state_int_number, stInt, initialState, hc]
    rw [List.cons_append,
      lexLoop_consume source f stInt c (ds ++ ['%', '%']) current prev offset tokens stInt
        rfl hred,
      ih source f (some c) (current.getD '\n') (offset + 1) tokens
        (fun x hx => hd x (List.mem_cons_of_mem c hx)) (by simp at hf; omega)]
    have : offset + 1 + ds.length + 1 = offset + (c :: ds).length + 1 := by
      simp; omega
    rw [this]

/-- Claim C8 (amended): for every nonempty digit sequence `d` of at most 999
digits, lexing `d%%` returns the `SyntaxError` reporting the duplicate
percent usage, at the position of the second `%`. (Longer digit sequences
trip the iteration ceiling instead, and an empty `d` reports an unexpected
symbol.) -/
theorem c8_double_percent_amended (d : List Char) (h1 : d ≠ [])
    (h2 : ∀ c ∈ d, c.isDigit = true) (h3 : d.length ≤ 999) :
    lexResult (tokenReaderParse initialState (d ++ ['%', '%']))
      = some (.error ⟨d.length + 1,
          "You cannot use the percent symbol twice on the same number"⟩) := by
  obtain ⟨c, ds, rfl⟩ : ∃ c ds, d = c :: ds := by
    cases d with
    | nil => exact absurd rfl h1
    | cons c ds => exact ⟨c, ds, rfl⟩
  have hc : c.isDigit = true := h2 c (by simp)
  have hred0 : reduce_state c ((none : Option Char).getD '\n') 0 initialState
      = .ok stInt := by
    simp [reduce_state, reduce_state_nothing, stInt, initialState, hc]
  rw [tokenReaderParse, show (1001 : Nat) = 1000 + 1 from rfl, List.cons_append,
    lexLoop_consume _ 1000 initialState c (ds ++ ['%', '%']) none '\n' 0 [] stInt rfl hred0,
    lexLoop_int_percent_twice ds _ 1000 (some c) (Option.getD none '\n') 1 []
      (fun x hx => h2 x (List.mem_cons_of_mem c hx)) (by simp at h3 ⊢; omega)]
  have : 1 + ds.length + 1 = (c :: ds).length + 1 := by simp; omega
  rw [this, lexResult]

theorem c8_witness :
    lexResult (tokenReaderParse initialState (['4', '2'] ++ ['%', '%']))
      = some (.error ⟨['4', '2'].length + 1,
          "You cannot use the percent symbol twice on the same number"⟩) :=
  c8_double_percent_amended ['4', '2'] (by decide) (by decide) (by decide)

/-- Scanning the digits `ds` of an integer literal followed by a single `%` at
end of input: the machine switches to percent-float at the `%`, runs off the
input, and hands the pending lexeme to the epilogue flush. -/
theorem lexLoop_int_percent_finish (ds : List Char) :
    ∀ (source : List Char) (fuel : Nat) (current : Option Char) (prev : Char)
      (offset : Nat) (tokens : List Token),
    (∀ c ∈ ds, c.isDigit = true) → ds.length + 2 ≤ fuel →
    lexLoop source fuel stInt (ds ++ ['%']) current prev offset tokens
      = lexFinish source stFloatP (offset + ds.length + 2) tokens := by
  induction ds with
  | nil =>
    intro source fuel current prev offset tokens _ hf
    obtain ⟨f, rfl⟩ : ∃ f, fuel = f + 1 + 1 := ⟨fuel - 2, by omega⟩
    rw [List.nil_append,
      lexLoop_consume source (f + 1) stInt '%' [] current prev offset tokens stFloatP
        rfl rfl,
      lexLoop_finish source f stFloatP (some '%') (current.getD '\n') (offset + 1) tokens
        rfl]
    simp [Nat.add_assoc]
  | cons c ds ih =>
    intro source fuel current prev offset tokens hd hf
    obtain ⟨f, rfl⟩ : ∃ f, fuel = f + 1 := ⟨fuel - 1, by omega⟩
    have hc : c.isDigit = true := hd c (by simp)
    have hred : reduce_state c (current.getD '\n') offset stInt = .ok stInt := by
      simp [reduce_state, reduce_state_int_number, stInt, initialState, hc]
    rw [List.cons_append,
      lexLoop_consume source f stInt c (ds ++ ['%']) current prev offset tokens stInt
        rfl hred,
      ih source f (some c) (current.getD '\n') (offset + 1) tokens
        (fun x hx => hd x (List.mem_cons_of_mem c hx)) (by simp at hf; omega)]
    have : offset + 1 + ds.length + 2 = offset + (c :: ds).length + 2 := by
      simp; omega
    rw [this]

/-- The length-prefix of an append. -/
theorem take_len_append {α : Type} (l₁ l₂ : List α) :
    (l₁ ++ l₂).take l₁.length = l₁ := by
  induction l₁ with
  | nil => simp
  | cons a l ih => simp [ih]

/-- `parseFloatQ` on a nonempty all-digit lexeme is the digit value. -/
theorem parseFloatQ_of_digits (d : List Char) (h1 : d ≠ [])
    (h2 : ∀ c ∈ d, c.isDigit = true) :
    parseFloatQ d = some (digitsToNat d : ℚ) := by
  unfold parseFloatQ
  rw [List.dropWhile_eq_nil_iff.mpr (by intro x hx; simp [h2 x hx]),
    List.takeWhile_eq_self_iff.mpr (by intro x hx; simp [h2 x hx])]
  cases d with
  | nil => exact absurd rfl h1
  | cons c ds => simp

/-- Claim C9 (amended): for every nonempty digit sequence `d` of at most 999
digits, lexing `d%` yields a single `FloatConstant` whose value is the numeric
value of `d` divided by 100 — the trailing `%` is excluded from the parsed
substring and the parsed value is scaled by `1/100` — with `pos` at the first
digit. (Longer digit sequences trip the iteration ceiling instead.) -/
theorem c9_percent_scaling_amended (d : List Char) (h1 : d ≠ [])
    (h2 : ∀ c ∈ d, c.isDigit = true) (h3 : d.length ≤ 999) :
    lexResult (tokenReaderParse initialState (d ++ ['%']))
      = some (.ok [.FloatConstant ((digitsToNat d : ℚ) / 100) 0]) := by
  obtain ⟨c, ds, rfl⟩ : ∃ c ds, d = c :: ds := by
    cases d with
    | nil => exact absurd rfl h1
    | cons c ds => exact ⟨c, ds, rfl⟩
  have hc : c.isDigit = true := h2 c (by simp)
  have hred0 : reduce_state c ((none : Option Char).getD '\n') 0 initialState
      = .ok stInt := by
    simp [reduce_state, reduce_state_nothing, stInt, initialState, hc]
  rw [tokenReaderParse, show (1001 : Nat) = 1000 + 1 from rfl, List.cons_append,
    lexLoop_consume _ 1000 initialState c (ds ++ ['%']) none '\n' 0 [] stInt rfl hred0,
    lexLoop_int_percent_finish ds _ 1000 (some c) (Option.getD none '\n') 1 []
      (fun x hx => h2 x (List.mem_cons_of_mem c hx)) (by simp at h3 ⊢; omega)]
  have htake : List.take (1 + ds.length) (c :: (ds ++ ['%'])) = c :: ds := by
    have h := take_len_append (c :: ds) ['%']
    simp only [List.cons_append, List.length_cons] at h
    rwa [Nat.add_comm 1 ds.length]
  have hpf : parseFloatQ (c :: ds) = some (digitsToNat (c :: ds) : ℚ) :=
    parseFloatQ_of_digits (c :: ds) h1 h2
  simp [lexFinish, push_token_if_ready, push_float_token_if_ready, stFloatP,
    initialState, slice, htake, hpf, get_percent_float, lexResult]
  rw [if_neg (by omega)]

theorem c9_witness :
    lexResult (tokenReaderParse initialState (['7'] ++ ['%']))
      = some (.ok [.FloatConstant ((digitsToNat ['7'] : ℚ) / 100) 0]) :=
  c9_percent_scaling_amended ['7'] (by decide) (by decide) (by decide)

/-- Scanning string-literal content up to end of input: every character other
than a quote or a backslash keeps the machine in `StringConstant` mode, and
running off the input hands the pending (unterminated) lexeme to the epilogue
flush. -/
theorem lexLoop_string_finish (l : List Char) :
    ∀ (source : List Char) (fuel : Nat) (current : Option Char) (prev : Char)
      (offset : Nat) (tokens : List Token),
    (∀ c ∈ l, c ≠ '"' ∧ c ≠ '\\') → l.length + 1 ≤ fuel →
    lexLoop source fuel stStr l current prev offset tokens
      = lexFinish source stStr (offset + l.length + 1) tokens := by
  induction l with
  | nil =>
    intro source fuel current prev offset tokens _ hf
    obtain ⟨f, rfl⟩ : ∃ f, fuel = f + 1 := ⟨fuel - 1, by omega⟩
    rw [lexLoop_finish source f stStr current prev offset tokens rfl]
    simp
  | cons c l ih =>
    intro source fuel current prev offset tokens hd hf
    obtain ⟨f, rfl⟩ : ∃ f, fuel = f + 1 := ⟨fuel - 1, by omega⟩
    obtain ⟨hq, hb⟩ := hd c (by simp)
    have hred : reduce_state c (current.getD '\n') offset stStr = .ok stStr := by
      simp [reduce_state, reduce_state_string_constant, stStr, initialState, hq, hb]
    rw [lexLoop_consume source f stStr c l current prev offset tokens stStr rfl hred,
      ih source f (some c) (current.getD '\n') (offset + 1) tokens
        (fun x hx => hd x (List.mem_cons_of_mem c hx)) (by simp at hf; omega)]
    have : offset + 1 + l.length + 1 = offset + (c :: l).length + 1 := by
      simp; omega
    rw [this]

/-- Taking all but the last element is `dropLast`. -/
theorem take_pred_eq_dropLast {α : Type} (l : List α) :
    l.take (l.length - 1) = l.dropLast := by
  induction l with
  | nil => rfl
  | cons a l ih =>
    cases l with
    | nil => rfl
    | cons b t =>
      simp only [List.length_cons, Nat.add_sub_cancel] at ih ⊢
      simp [ih]

/-- Claim C4 (amended): when the input ends inside an unclosed string literal
`"cs` (content `cs` nonempty, ASCII, free of quotes and backslashes, at most
999 characters), `parse` still succeeds and emits a `StringConstant`: the
epilogue flush strips the first and last characters of the pending lexeme, so
the emitted payload is the literal content minus its final character. (The
ASCII restriction keeps character offsets equal to the byte offsets the Rust
code slices with; a non-ASCII final character would make the flush slice end
inside a multi-byte character and abort.) -/
theorem c4_unterminated_string_amended (cs : List Char) (h1 : cs ≠ [])
    (h2 : ∀ c ∈ cs, c ≠ '"' ∧ c ≠ '\\') (h3 : cs.length ≤ 999)
    (h4 : ∀ c ∈ cs, c.toNat < 128) :
    lexResult (tokenReaderParse initialState ('"' :: cs))
      = some (.ok [.StringConstant (String.mk cs.dropLast) 0]) := by
  have hred0 : reduce_state '"' ((none : Option Char).getD '\n') 0 initialState
      = .ok stStr := rfl
  rw [tokenReaderParse, show (1001 : Nat) = 1000 + 1 from rfl,
    lexLoop_consume _ 1000 initialState '"' cs none '\n' 0 [] stStr rfl hred0,
    lexLoop_string_finish cs _ 1000 (some '"') (Option.getD none '\n') 1 [] h2
      (by omega)]
  have hlen : 1 ≤ cs.length := by
    cases cs with
    | nil => exact absurd rfl h1
    | cons a t => simp
  rw [← take_pred_eq_dropLast]
  simp [lexFinish, push_token_if_ready, stStr, initialState, slice, lexResult]
  rw [if_neg (show ¬(1 + cs.length < 2) by omega)]
  rw [if_neg (by omega)]

theorem c4_witness :
    lexResult (tokenReaderParse initialState ('"' :: ['h', 'i']))
      = some (.ok [.StringConstant (String.mk (['h', 'i'].dropLast)) 0]) :=
  c4_unterminated_string_amended ['h', 'i'] (by decide) (by decide) (by decide) (by decide)

/-- `reduce_state_nothing` overwrites `start_offset` in every successful
branch, so a residual `start_offset` in an otherwise-initial state cannot
influence it. -/
theorem reduce_state_nothing_start_irrel (c : Char) (off so : Nat) :
    reduce_state_nothing c off (State.mk .Nothing so false false false false false false)
      = reduce_state_nothing c off initialState := by
  unfold reduce_state_nothing
  split_ifs <;> rfl

/-- Claim C3 (amended): the reader state is not fully reset per call, but a
parse of a nonempty source started from any state whose mode is `Nothing` and
whose flags are all clear — only `start_offset` may differ from a fresh
reader — returns the same result as a parse on a freshly constructed reader.
(Nonemptiness is required: on an empty source the epilogue flush slices
`&source[start_offset..0]` before dispatching on the mode, so a residual
`start_offset > 0` aborts the process where a fresh reader returns an empty
token list. On a nonempty source the first character is consumed before any
flush can fire and `reduce_state_nothing` overwrites `start_offset`, after
which the two runs carry identical states.) -/
theorem c3_reset_state_amended (st : State)
    (h1 : st.expected = .Nothing) (h2 : st.is_ready_to_push = false)
    (h3 : st.is_prev_escape_symbol = false) (h4 : st.identifier_is_function = false)
    (h5 : st.is_inside_block_comment = false) (h6 : st.is_inside_string = false)
    (h7 : st.is_percent_float = false) (source : List Char) (hsrc : source ≠ []) :
    lexResult (tokenReaderParse st source)
      = lexResult (tokenReaderParse initialState source) := by
  obtain ⟨e, so, r, pe, idf, ibc, iis, ipf⟩ := st
  dsimp only at h1 h2 h3 h4 h5 h6 h7
  subst h1 h2 h3 h4 h5 h6 h7
  cases source with
  | nil => exact absurd rfl hsrc
  | cons c cs =>
    simp only [tokenReaderParse]
    rw [show (1001 : Nat) = 1000 + 1 from rfl]
    have hirr : reduce_state c ((none : Option Char).getD '\n') 0
        (State.mk .Nothing so false false false false false false)
        = reduce_state c ((none : Option Char).getD '\n') 0 initialState :=
      reduce_state_nothing_start_irrel c 0 so
    cases hred : reduce_state c ((none : Option Char).getD '\n') 0 initialState with
    | error e =>
      rw [lexLoop_consume_err _ 1000 _ c cs none '\n' 0 [] e rfl (hirr.trans hred),
        lexLoop_consume_err _ 1000 initialState c cs none '\n' 0 [] e rfl hred]
      rfl
    | ok st2 =>
      rw [lexLoop_consume _ 1000 _ c cs none '\n' 0 [] st2 rfl (hirr.trans hred),
        lexLoop_consume _ 1000 initialState c cs none '\n' 0 [] st2 rfl hred]

theorem c3_witness :
    lexResult (tokenReaderParse
        ⟨.Nothing, 7, false, false, false, false, false, false⟩ ['b'])
      = lexResult (tokenReaderParse initialState ['b']) :=
  c3_reset_state_amended ⟨.Nothing, 7, false, false, false, false, false, false⟩
    rfl rfl rfl rfl rfl rfl rfl ['b'] (by decide)

end Avoc
